import Mathlib

/-!
Shallow embedding of the MOKE sweep-control and adaptive-acquisition engine
(`MOKE.py`, class `Experiment`) and proofs of the specification's claims
about it.

Modelling conventions:
* Python floats are modelled as rationals `ℚ`.  The one place where IEEE NaN
  semantics is observable (the mean of an empty sample array, `np.mean([])`)
  is modelled by `FVal := Option ℚ`, with `none` playing the role of NaN:
  NaN propagates through `abs`/`max`/`/` and every ordered comparison with
  NaN is false, exactly as in Python/NumPy.
* `time.sleep` calls only consume wall-clock time; they are dropped.
* Plotting calls (`_make_fig`, `_update_sweep_plot`, `plt.show`) only touch
  the figure; they are dropped.
* The two instrument drivers (`srs_sr830.py`, `bop50_8d.py`) are not part of
  the sources; the few driver operations the core uses are modelled from the
  spec (marked `Modelled from the spec:` below).
-/

namespace MOKE

/-- A Python float value that may be NaN: `none` models NaN. -/
abbrev FVal := Option ℚ

/-- Model of `np.mean` of a list of (non-NaN) floats: NaN (`none`) on the empty
array — NumPy emits a `RuntimeWarning` and returns `nan`, it does not
raise — and the arithmetic mean otherwise. -/
def npMean (xs : List ℚ) : FVal :=
  if xs.isEmpty then none else some (xs.sum / xs.length)

/-- Python `abs` on a possibly-NaN float: NaN propagates. -/
def nanAbs (v : FVal) : FVal := v.map (fun q => |q|)

/-- Python builtin `max` on two possibly-NaN floats: NaN propagates
(with a NaN argument the comparison is false and a NaN is returned). -/
def nanMax (a b : FVal) : FVal :=
  match a, b with
  | some x, some y => some (max x y)
  | _, _ => none

/-- Division of a possibly-NaN float by a (nonzero, non-NaN) float:
NaN propagates. -/
def nanDiv (a : FVal) (b : ℚ) : FVal := a.map (fun q => q / b)

/-- Python `>` against a non-NaN right-hand side: every ordered comparison
with NaN is false. -/
def nanGt (a : FVal) (b : ℚ) : Bool :=
  match a with
  | none => false
  | some q => decide (b < q)

/-- The session defaults set in `Experiment.__init__` (lines 44–49):
sensitivity, sensitivity-settle delay, read repetitions, inter-repetition
delay, post-set-point read delay, and initial-ramp ("from 0") delay. -/
structure Defaults where
  sen : ℚ
  sen_delay : ℚ
  read_reps : ℕ
  rep_delay : ℚ
  read_delay : ℚ
  from0delay : ℚ
  deriving DecidableEq

/-- The concrete values assigned in `__init__`:
`self.sen = 0.0002`, `self.sen_delay = 3`, `self.read_reps = 1`,
`self.rep_delay = 0`, `self.read_delay = 0.02`, `self.from0delay = 4`. -/
def defaults0 : Defaults :=
  { sen := 2/10000, sen_delay := 3, read_reps := 1, rep_delay := 0,
    read_delay := 2/100, from0delay := 4 }

/-- Source `Experiment._get_sen`: the override if it is not `None`, else the
session default.  `none` models Python's `None` sentinel. -/
def get_sen (d : Defaults) (sen : Option ℚ) : ℚ :=
  match sen with
  | none => d.sen
  | some v => v

/-- Source `Experiment._get_sen_delay`. -/
def get_sen_delay (d : Defaults) (sen_delay : Option ℚ) : ℚ :=
  match sen_delay with
  | none => d.sen_delay
  | some v => v

/-- Source `Experiment._get_read_reps`. -/
def get_read_reps (d : Defaults) (read_reps : Option ℕ) : ℕ :=
  match read_reps with
  | none => d.read_reps
  | some v => v

/-- Source `Experiment._get_rep_delay`. -/
def get_rep_delay (d : Defaults) (rep_delay : Option ℚ) : ℚ :=
  match rep_delay with
  | none => d.rep_delay
  | some v => v

/-- Source `Experiment._get_read_delay`. -/
def get_read_delay (d : Defaults) (read_delay : Option ℚ) : ℚ :=
  match read_delay with
  | none => d.read_delay
  | some v => v

/-- Source `Experiment._get_from0delay`. -/
def get_from0delay (d : Defaults) (from0delay : Option ℚ) : ℚ :=
  match from0delay with
  | none => d.from0delay
  | some v => v

/-- The default value of the `sen` parameter in `sweep_field`'s signature
(line 184): `sen=0.002`.  Unlike every other tunable parameter of
`sweep_field`, whose signature default is `None`, this is a concrete
number, not the use-default sentinel. -/
def sweep_field_default_sen : Option ℚ := some (2/1000)

/-- Modelled from the spec: the SR830 driver (`srs_sr830.py`, not among the
sources) exposes discrete sensitivity levels following the instrument's
2–5–10 full-scale pattern starting at 2 nV; `senOfLevel l` is the
full-scale value (in volts) of level `l`.  A larger full-scale value means
a *lower* sensitivity (larger signals tolerated without clipping). -/
def senOfLevel (l : ℕ) : ℚ :=
  (if l % 3 = 0 then 2 else if l % 3 = 1 then 5 else 10) * 10 ^ (l / 3) / 10 ^ 9

/-- Modelled from the spec: assigning `self.LIA.SEN = v` selects the
discrete sensitivity level whose full-scale value matches the request —
the least level whose full-scale is at least `v` (the instrument has 27
levels, 2 nV … 1 V). -/
def levelOfSen (v : ℚ) : ℕ :=
  (((List.range 27).find? (fun l => decide (v ≤ senOfLevel l))).getD 26)

/-- The mutable instrument-facing state the sweep threads through:
the lock-in's current sensitivity level (`LIA.SEN`, kept as a level
index), the cursor into the stream of two-phase samples the lock-in will
deliver, the power source's live output current (`PS.current`), and how
many `PS.set_current` commands have been issued (used to inject
communication failures). -/
structure ExpState where
  senLevel : ℕ
  pos : ℕ
  psCurrent : ℚ
  setCalls : ℕ
  deriving DecidableEq

/-- The external world: the sequence of two-phase `(X, Y)` samples the
lock-in returns to successive `LIA.getXY()` calls, and which
`PS.set_current` commands fail with a communication error. -/
structure Env where
  stream : ℕ → ℚ × ℚ
  setFail : ℕ → Bool

/-- The `X_arr`/`Y_arr` sample-collection loop of `readXY` (lines 381–386):
`reps` successive `LIA.getXY()` reads starting at stream position `pos`,
returned as the list of X samples and the list of Y samples. -/
def takeSamples (stream : ℕ → ℚ × ℚ) (pos : ℕ) : ℕ → List ℚ × List ℚ
  | 0 => ([], [])
  | n + 1 =>
    let rest := takeSamples stream (pos + 1) n
    ((stream pos).1 :: rest.1, (stream pos).2 :: rest.2)

/-- Source `Experiment.readXY` (lines 364–394): resolve the repetition count,
take that many two-phase samples (sleeping `rep_delay` between them),
average each channel with `np.mean`, then compute
`sen_ratio = abs(max(abs(Xval), abs(Yval))) / self.LIA.SEN`; when
`sen_ratio > 0.8` call `self.LIA.decrease_sensitivity()` (step the gain
down one level) and sleep `sen_delay`.  Returns `(Xval, Yval)` as computed
before any gain adjustment, paired with the updated state. -/
def readXY (d : Defaults) (stream : ℕ → ℚ × ℚ) (read_reps : Option ℕ)
    (st : ExpState) : (FVal × FVal) × ExpState :=
  let reps := get_read_reps d read_reps
  let samples := takeSamples stream st.pos reps
  let Xval := npMean samples.1
  let Yval := npMean samples.2
  let sen_ratio := nanDiv (nanAbs (nanMax (nanAbs Xval) (nanAbs Yval)))
    (senOfLevel st.senLevel)
  let st1 : ExpState := { st with pos := st.pos + reps }
  let st2 : ExpState :=
    if nanGt sen_ratio (8/10) then { st1 with senLevel := st1.senLevel + 1 }
    else st1
  ((Xval, Yval), st2)

/-- Source `Experiment.field2current` (line 311): `field / 193`. -/
def field2current (field : ℚ) : ℚ := field / 193

/-- Source `Experiment.current2field` (line 323): `current * 193`. -/
def current2field (current : ℚ) : ℚ := current * 193

/-- The errors a sweep can terminate with.  `configurationError` is the
spec's §7 taxonomy entry for invalid input validation; the code never
raises it (it has no validation), it is present so that statements can
distinguish it from what the code actually does.  `indexOutOfRange`
models Python's `IndexError`; `rampFailure` a communication failure of
the pre-loop `PS.set_current(currents[0])` ramp command (line 215);
`instrumentError i` a communication failure commanding set-point `i`
inside the stepping loop (line 260). -/
inductive MErr where
  | indexOutOfRange
  | configurationError
  | rampFailure
  | instrumentError (i : ℕ)
  deriving DecidableEq

/-- The stepping loop of `_sweep_parameter` (lines 259–280):
`for i, param in enumerate(params)`: command the set-point (a raised
communication error propagates immediately, aborting the loop), sleep the
read delay, `readXY`, append the reading to both accumulators; on the last
index with `close_loop` also re-append the first recorded X and Y
(`np.append(X_array, X_array[0])`).  Plot updates are dropped. -/
def sweepLoop (env : Env) (d : Defaults) (read_reps : Option ℕ)
    (close_loop : Bool) (i : ℕ) (xacc yacc : List FVal) (st : ExpState) :
    List ℚ → ExpState × Except MErr (List FVal × List FVal)
  | [] => (st, .ok (xacc, yacc))
  | p :: rest =>
    if env.setFail st.setCalls then (st, .error (.instrumentError i))
    else
      let st1 : ExpState := { st with psCurrent := p, setCalls := st.setCalls + 1 }
      let r := readXY d env.stream read_reps st1
      let xacc1 := xacc ++ [r.1.1]
      let yacc1 := yacc ++ [r.1.2]
      if close_loop && rest.isEmpty then
        sweepLoop env d read_reps close_loop (i + 1)
          (xacc1 ++ [xacc1.headD none]) (yacc1 ++ [yacc1.headD none]) r.2 rest
      else
        sweepLoop env d read_reps close_loop (i + 1) xacc1 yacc1 r.2 rest

/-- Source `Experiment._sweep_parameter` (lines 243–298): set `LIA.SEN` to the
resolved sensitivity, run the stepping loop from empty accumulators, and
— only when the loop ran to completion — reset `PS.current = 0`
(line 282 follows the `for` loop with no `try`/`finally`, so an exception
raised inside the loop propagates without executing it).  The figure-file
naming and saving (lines 285–296) touch only the filesystem and are
modelled separately by `avoidCollision`. -/
def sweep_parameter (env : Env) (d : Defaults) (params : List ℚ)
    (sen : Option ℚ) (read_reps : Option ℕ) (close_loop : Bool)
    (st : ExpState) : ExpState × Except MErr (List FVal × List FVal) :=
  let st0 : ExpState := { st with senLevel := levelOfSen (get_sen d sen) }
  let r := sweepLoop env d read_reps close_loop 0 [] [] st0 params
  match r.2 with
  | .error e => (r.1, .error e)
  | .ok xy => ({ r.1 with psCurrent := 0 }, .ok xy)

/-- Line 211: `fields = np.concatenate((fields, -fields))` — every
requested field paired with its negation. -/
def mirrorFields (fields : List ℚ) : List ℚ :=
  fields ++ fields.map (fun f => -f)

/-- The optional closed-loop extension of a (mirrored) plan:
`np.append(plan, plan[0])` (line 227). -/
def closePlan (plan : List ℚ) : List ℚ := plan ++ [plan.headD 0]

/-- The four columns of the persisted table, in the DataFrame's column
order (line 237): `current_A, field_Oe, X, Y`. -/
structure Table where
  current_A : List ℚ
  field_Oe : List ℚ
  X : List FVal
  Y : List FVal
  deriving DecidableEq

/-- Source `Experiment.sweep_field` (lines 183–241): mirror the field sequence,
convert to currents, command the first set-point as a ramp (on an empty
input `currents[0]` raises `IndexError` right here — there is no field-
sequence validation), sleep the ramp delay, run `_sweep_parameter`, and on
success append the closed-loop duplicate to `currents`/`fields` when
requested and assemble the DataFrame.  CSV naming (lines 230–235) is
modelled separately by `avoidCollision`. -/
def sweep_field (env : Env) (d : Defaults) (fields : List ℚ)
    (close_loop : Bool) (sen : Option ℚ) (read_reps : Option ℕ)
    (st : ExpState) : ExpState × Except MErr Table :=
  let fields2 := mirrorFields fields
  let currents := fields2.map field2current
  match currents with
  | [] => (st, .error .indexOutOfRange)
  | c0 :: _ =>
    if env.setFail st.setCalls then (st, .error .rampFailure)
    else
      let st0 : ExpState := { st with psCurrent := c0, setCalls := st.setCalls + 1 }
      let r := sweep_parameter env d currents sen read_reps close_loop st0
      match r.2 with
      | .error e => (r.1, .error e)
      | .ok xy =>
        let currents2 := if close_loop then currents ++ [c0] else currents
        let fields3 := if close_loop then closePlan fields2 else fields2
        (r.1, .ok { current_A := currents2, field_Oe := fields3, X := xy.1, Y := xy.2 })

/-- The sensitivity level in effect at each successive acquisition
(`readXY` call) of the stepping loop, in order: the state evolves through
exactly the same set-command / read-average-adjust steps as `sweepLoop`
(the accumulators and the `close_loop` duplication do not touch the
instrument state). -/
def gainLevelsDuring (env : Env) (d : Defaults) (read_reps : Option ℕ)
    (st : ExpState) : List ℚ → List ℕ
  | [] => []
  | p :: rest =>
    if env.setFail st.setCalls then []
    else
      let st1 : ExpState := { st with psCurrent := p, setCalls := st.setCalls + 1 }
      st1.senLevel ::
        gainLevelsDuring env d read_reps (readXY d env.stream read_reps st1).2 rest

/-- Model of `os.path.join(dir, name)` for the paths the writer builds. -/
def pathJoin (dir name : String) : String := dir ++ "/" ++ name

/-- The artifact-naming loop, used verbatim for the `.csv` (lines 230–235)
and the `.png` (lines 285–290):

    save_path = os.path.join(save_dir, filename + ext); counter = 1
    while os.path.exists(save_path):
        filename = filename + '_({})'.format(counter)
        save_path = os.path.join(save_dir, filename + ext)
        counter += 1

`existing` is the set of paths `os.path.exists` answers true for; the
recursion is fuelled because the Python loop's termination depends on the
filesystem.  Note that the suffix is appended to the already-suffixed
`filename`, so successive candidates accumulate suffixes. -/
def avoidCollision (existing : List String) (dir ext : String) :
    ℕ → String → ℕ → Option String
  | 0, _, _ => none
  | fuel + 1, filename, counter =>
    let save_path := pathJoin dir (filename ++ ext)
    if save_path ∈ existing then
      avoidCollision existing dir ext fuel
        (filename ++ "_(" ++ toString counter ++ ")") (counter + 1)
    else some save_path

/-- The naming rule as the spec words it, for comparison with
`avoidCollision`: use `{dir}/{name}{ext}` if free, else
`{dir}/{name}_(k){ext}` for the smallest positive integer `k` that avoids
a collision (searched up to `bound`). -/
def specCollisionPath (existing : List String) (dir filename ext : String)
    (bound : ℕ) : Option String :=
  let base := pathJoin dir (filename ++ ext)
  if base ∈ existing then
    ((List.range bound).map
        (fun k => pathJoin dir (filename ++ "_(" ++ toString (k + 1) ++ ")" ++ ext))).find?
      (fun p => decide (p ∉ existing))
  else some base

/-! ### Shared helper lemmas -/

theorem takeSamples_fst_length (stream : ℕ → ℚ × ℚ) :
    ∀ n pos, (takeSamples stream pos n).1.length = n := by
  intro n
  induction n with
  | zero => intro pos; rfl
  | succ k ih => intro pos; simp [takeSamples, ih]

theorem takeSamples_snd_length (stream : ℕ → ℚ × ℚ) :
    ∀ n pos, (takeSamples stream pos n).2.length = n := by
  intro n
  induction n with
  | zero => intro pos; rfl
  | succ k ih => intro pos; simp [takeSamples, ih]

/-! ### Theorems for the claims -/

/-- C8: the unit converters are pure and mutually inverse:
`field2current` divides by the calibration constant 193,
`current2field` multiplies by it, and
`current2field (field2current x) = x` exactly (floats are modelled by
exact rationals, so the identity holds with no rounding slack). -/
theorem C8_converters_inverse (x c : ℚ) :
    current2field (field2current x) = x ∧
    field2current x = x / 193 ∧ current2field c = c * 193 := by
  refine ⟨?_, rfl, rfl⟩
  unfold field2current current2field
  exact div_mul_cancel₀ x (by norm_num)

/-- C3 counterexample: the claim says an omitted override always resolves
to the session default, for every tunable parameter.  For the sensitivity
parameter of `sweep_field` this fails: the signature default is the
concrete value `0.002`, not the `None` sentinel, so an omitted sensitivity
override resolves to `0.002` while the session default is `0.0002`. -/
theorem C3_counterexample :
    get_sen defaults0 sweep_field_default_sen = 2/1000 ∧
    defaults0.sen = 2/10000 ∧
    get_sen defaults0 sweep_field_default_sen ≠ defaults0.sen := by
  refine ⟨rfl, rfl, ?_⟩
  norm_num [get_sen, sweep_field_default_sen, defaults0]

/-- C3 amended: each of the six resolvers (`_get_sen`, `_get_sen_delay`,
`_get_read_reps`, `_get_rep_delay`, `_get_read_delay`, `_get_from0delay`)
returns the caller's override when one is supplied (a supplied zero
included, so zero is distinguishable from the `None` sentinel) and the
session default when the `None` sentinel is passed; but `sweep_field`'s
own signature defaults the sensitivity argument to the concrete value
`0.002` rather than the sentinel, so a caller who omits the sensitivity
override gets `0.002`, not the session default. -/
theorem C3_resolvers (d : Defaults) (v : ℚ) (n : ℕ) :
    get_sen d (some v) = v ∧ get_sen d none = d.sen ∧
    get_sen d (some 0) = 0 ∧
    get_sen_delay d (some v) = v ∧ get_sen_delay d none = d.sen_delay ∧
    get_read_reps d (some n) = n ∧ get_read_reps d none = d.read_reps ∧
    get_rep_delay d (some v) = v ∧ get_rep_delay d none = d.rep_delay ∧
    get_read_delay d (some v) = v ∧ get_read_delay d none = d.read_delay ∧
    get_from0delay d (some v) = v ∧ get_from0delay d none = d.from0delay ∧
    get_sen d sweep_field_default_sen = 2/1000 :=
  ⟨rfl, rfl, rfl, rfl, rfl, rfl, rfl, rfl, rfl, rfl, rfl, rfl, rfl, rfl⟩

/-- C4: the mirrored plan `fields ++ (-fields)` of an `N`-element input
has exactly `2N` elements (`2N + 1` after the closed-loop extension, for a
nonempty input), and the element at position `N + i` is the negation of
the element at position `i` for every `i < N`. -/
theorem C4_plan_shape (F : List ℚ) :
    (mirrorFields F).length = 2 * F.length ∧
    (F ≠ [] → (closePlan (mirrorFields F)).length = 2 * F.length + 1) ∧
    ∀ i, i < F.length →
      (mirrorFields F)[F.length + i]? = ((mirrorFields F)[i]?).map (fun x : ℚ => -x) := by
  refine ⟨?_, ?_, ?_⟩
  · simp [mirrorFields]; ring
  · intro _
    simp [closePlan, mirrorFields]; ring
  · intro i hi
    unfold mirrorFields
    rw [List.getElem?_append, List.getElem?_append, if_neg (by omega), if_pos hi,
      Nat.add_sub_cancel_left]
    simp

/-- C4 witness: the shape facts at the concrete input `[10, 20]`. -/
theorem C4_plan_shape_witness :
    (closePlan (mirrorFields [(10 : ℚ), 20])).length = 2 * 2 + 1 ∧
    (mirrorFields [(10 : ℚ), 20])[2 + 1]? =
      ((mirrorFields [(10 : ℚ), 20])[1]?).map (fun x : ℚ => -x) :=
  ⟨(C4_plan_shape [10, 20]).2.1 (by simp),
   (C4_plan_shape [10, 20]).2.2 1 (by norm_num)⟩

/-- C9 counterexample: an empty field sequence does not produce a
configuration error — `sweep_field` performs no validation and fails with
the `IndexError` raised by `currents[0]` at the ramp step (line 215). -/
theorem C9_counterexample :
    (sweep_field ⟨fun _ => (0, 0), fun _ => false⟩ defaults0 [] false
        none none ⟨0, 0, 0, 0⟩).2 = .error .indexOutOfRange ∧
    MErr.indexOutOfRange ≠ MErr.configurationError :=
  ⟨rfl, by decide⟩

/-- C9 amended: for every sweep invocation with an empty field sequence,
the sweep fails with an index-out-of-range error (Python `IndexError`
from `currents[0]`), not with a `ConfigurationError` — the code contains
no field-sequence validation and no `ConfigurationError` at all. -/
theorem C9_empty_fields (env : Env) (d : Defaults) (close_loop : Bool)
    (sen : Option ℚ) (rr : Option ℕ) (st : ExpState) :
    (sweep_field env d [] close_loop sen rr st).2 = .error .indexOutOfRange := rfl

/-- C10: calling `readXY` with the repetition count explicitly resolved
to `0` (`some 0`, bypassing the `None` use-default sentinel) takes no
samples, returns the NaN pair `np.mean([])` produces (no exception is
raised), and — because a comparison against NaN is false — leaves the
gain state (and the whole instrument state) unchanged. -/
theorem C10_zero_reps (d : Defaults) (stream : ℕ → ℚ × ℚ) (st : ExpState) :
    readXY d stream (some 0) st = ((none, none), st) := rfl

theorem readXY_senLevel_le (d : Defaults) (stream : ℕ → ℚ × ℚ)
    (rr : Option ℕ) (st : ExpState) :
    st.senLevel ≤ ((readXY d stream rr st).2).senLevel := by
  unfold readXY
  dsimp only
  split
  · exact Nat.le_succ _
  · exact le_refl _

theorem sweepLoop_senLevel_le (env : Env) (d : Defaults) (rr : Option ℕ)
    (close_loop : Bool) :
    ∀ (params : List ℚ) (i : ℕ) (xacc yacc : List FVal) (st : ExpState),
      st.senLevel ≤ (sweepLoop env d rr close_loop i xacc yacc st params).1.senLevel := by
  intro params
  induction params with
  | nil => intro i xacc yacc st; exact le_refl _
  | cons p rest ih =>
    intro i xacc yacc st
    unfold sweepLoop
    dsimp only
    split
    · exact le_refl _
    · split
      · exact le_trans
          (readXY_senLevel_le d env.stream rr
            { st with psCurrent := p, setCalls := st.setCalls + 1 })
          (ih _ _ _ _)
      · exact le_trans
          (readXY_senLevel_le d env.stream rr
            { st with psCurrent := p, setCalls := st.setCalls + 1 })
          (ih _ _ _ _)

theorem gainLevelsDuring_head_ge (env : Env) (d : Defaults) (rr : Option ℕ)
    (params : List ℚ) (st : ExpState) :
    ∀ b ∈ (gainLevelsDuring env d rr st params).head?, st.senLevel ≤ b := by
  cases params with
  | nil => simp [gainLevelsDuring]
  | cons p rest =>
    unfold gainLevelsDuring
    dsimp only
    split
    · simp
    · intro b hb
      simp only [List.head?_cons, Option.mem_def, Option.some.injEq] at hb
      omega

theorem gainLevelsDuring_chain (env : Env) (d : Defaults) (rr : Option ℕ) :
    ∀ (params : List ℚ) (st : ExpState),
      (gainLevelsDuring env d rr st params).Chain' (· ≤ ·) := by
  intro params
  induction params with
  | nil => intro st; simp [gainLevelsDuring]
  | cons p rest ih =>
    intro st
    unfold gainLevelsDuring
    dsimp only
    split
    · simp
    · rw [List.chain'_cons']
      refine ⟨fun b hb => ?_, ih _⟩
      exact le_trans
        (readXY_senLevel_le d env.stream rr
          { st with psCurrent := p, setCalls := st.setCalls + 1 })
        (gainLevelsDuring_head_ge env d rr rest _ b hb)

theorem senOfLevel_le_succ (l : ℕ) : senOfLevel l ≤ senOfLevel (l + 1) := by
  unfold senOfLevel
  have hp : (0 : ℚ) < 10 ^ (l / 3) := by positivity
  have h3 : l % 3 = 0 ∨ l % 3 = 1 ∨ l % 3 = 2 := by omega
  rcases h3 with h | h | h
  · have h1 : (l + 1) % 3 = 1 := by omega
    have h2 : (l + 1) / 3 = l / 3 := by omega
    rw [h, h1, h2]
    norm_num
    gcongr
    norm_num
  · have h1 : (l + 1) % 3 = 2 := by omega
    have h2 : (l + 1) / 3 = l / 3 := by omega
    rw [h, h1, h2]
    norm_num
    gcongr
    norm_num
  · have h1 : (l + 1) % 3 = 0 := by omega
    have h2 : (l + 1) / 3 = l / 3 + 1 := by omega
    rw [h, h1, h2]
    norm_num [pow_succ]
    nlinarith [hp]

/-- C1: for a `readXY` call whose resolved repetition count is `R ≥ 1`,
the returned pair is exactly the arithmetic mean of the `R` two-phase
samples taken (computed before any gain adjustment); the gain state is
stepped down one level exactly when
`max |Xmean| |Ymean| / currentGain > 0.8`, and the returned pair is the
same in both branches, i.e. unaffected by the adjustment. -/
theorem C1_readXY_mean_and_gain (d : Defaults) (stream : ℕ → ℚ × ℚ)
    (rr : Option ℕ) (st : ExpState) (R : ℕ) (hR : get_read_reps d rr = R)
    (h1 : 1 ≤ R) :
    readXY d stream rr st =
      ((some ((takeSamples stream st.pos R).1.sum / (R : ℚ)),
        some ((takeSamples stream st.pos R).2.sum / (R : ℚ))),
       if max |(takeSamples stream st.pos R).1.sum / (R : ℚ)|
            |(takeSamples stream st.pos R).2.sum / (R : ℚ)| /
            senOfLevel st.senLevel > 8/10 then
         { st with pos := st.pos + R, senLevel := st.senLevel + 1 }
       else { st with pos := st.pos + R }) := by
  subst hR
  have hxlen := takeSamples_fst_length stream (get_read_reps d rr) st.pos
  have hylen := takeSamples_snd_length stream (get_read_reps d rr) st.pos
  have hxe : ((takeSamples stream st.pos (get_read_reps d rr)).1).isEmpty = false := by
    rw [List.isEmpty_eq_false_iff_exists_mem]
    rcases List.exists_mem_of_length_pos (by omega : 0 < ((takeSamples stream st.pos (get_read_reps d rr)).1).length) with ⟨a, ha⟩
    exact ⟨a, ha⟩
  have hye : ((takeSamples stream st.pos (get_read_reps d rr)).2).isEmpty = false := by
    rw [List.isEmpty_eq_false_iff_exists_mem]
    rcases List.exists_mem_of_length_pos (by omega : 0 < ((takeSamples stream st.pos (get_read_reps d rr)).2).length) with ⟨a, ha⟩
    exact ⟨a, ha⟩
  have habs : ∀ a b : ℚ, abs (max (abs a) (abs b)) = max (abs a) (abs b) :=
    fun a b => abs_of_nonneg (le_trans (abs_nonneg a) (le_max_left _ _))
  simp only [readXY, npMean, hxe, hye, hxlen, hylen, nanAbs, nanMax, nanDiv, nanGt,
    Option.map_some', Bool.false_eq_true, if_false, decide_eq_true_eq, habs,
    gt_iff_lt]

/-- C1 witness: a concrete call with the session-default repetition count
`R = 1`: the single sample `(1, 2)` is returned as the mean, and since
`max 1 2 / senOfLevel 0 = 10⁹ > 0.8` the gain is stepped down one level
while the returned pair is the untouched pre-adjustment mean. -/
theorem C1_readXY_mean_and_gain_witness :
    readXY defaults0 (fun _ => (1, 2)) none ⟨0, 0, 0, 0⟩ =
      ((some 1, some 2), ⟨1, 1, 0, 0⟩) := by
  have h := C1_readXY_mean_and_gain defaults0 (fun _ => (1, 2)) none
    ⟨0, 0, 0, 0⟩ 1 rfl (le_refl 1)
  rw [h]
  norm_num [takeSamples, senOfLevel]

/-- C5: the engine's only gain mutation is the step-down inside `readXY`
(the sensitivity-level index can only grow, and a larger level index means
a larger full-scale value, i.e. lower sensitivity — `senOfLevel` is
monotone).  Hence the sequence of gain levels observed across a sweep's
acquisition steps is non-increasing in sensitivity, and the final level of
any stepping loop is no more sensitive than the initial one. -/
theorem C5_gain_never_raised (env : Env) (d : Defaults) (rr : Option ℕ)
    (st : ExpState) (params : List ℚ) (close_loop : Bool) (i : ℕ)
    (xacc yacc : List FVal) :
    st.senLevel ≤ ((readXY d env.stream rr st).2).senLevel ∧
    (gainLevelsDuring env d rr st params).Chain' (· ≤ ·) ∧
    st.senLevel ≤ (sweepLoop env d rr close_loop i xacc yacc st params).1.senLevel ∧
    ∀ l, senOfLevel l ≤ senOfLevel (l + 1) :=
  ⟨readXY_senLevel_le d env.stream rr st,
   gainLevelsDuring_chain env d rr params st,
   sweepLoop_senLevel_le env d rr close_loop params i xacc yacc st,
   senOfLevel_le_succ⟩

theorem sweep_parameter_psCurrent_ok (env : Env) (d : Defaults)
    (params : List ℚ) (sen : Option ℚ) (rr : Option ℕ) (close_loop : Bool)
    (st : ExpState) (xy : List FVal × List FVal)
    (h : (sweep_parameter env d params sen rr close_loop st).2 = .ok xy) :
    (sweep_parameter env d params sen rr close_loop st).1.psCurrent = 0 := by
  unfold sweep_parameter at h ⊢
  dsimp only at h ⊢
  split at h
  · exact absurd h (by simp)
  · rfl

/-- C2 amended: the power source is commanded to zero only when the
stepping loop runs to completion — `self.PS.current = 0` (line 282)
simply follows the `for` loop, with no `try`/`finally`, so it executes
exactly on normal completion.  When an instrument failure aborts the
loop, the error propagates to the caller and the zeroing step is skipped
(see the counterexample for the abort side). -/
theorem C2_zero_only_on_success (env : Env) (d : Defaults) (fields : List ℚ)
    (close_loop : Bool) (sen : Option ℚ) (rr : Option ℕ) (st : ExpState)
    (h : ∃ t, (sweep_field env d fields close_loop sen rr st).2 = Except.ok t) :
    (sweep_field env d fields close_loop sen rr st).1.psCurrent = 0 := by
  rcases h with ⟨t, ht⟩
  unfold sweep_field at ht ⊢
  dsimp only at ht ⊢
  split at ht
  · exact absurd ht (by simp)
  · split at ht
    · exact absurd ht (by simp)
    · next hfail =>
        rw [if_neg hfail]
        split at ht
        · exact absurd ht (by simp)
        · next xy heq2 =>
            exact sweep_parameter_psCurrent_ok _ _ _ _ _ _ _ _ heq2

/-- C2 witness: a fully successful sweep of `[10]` ends with the power
source zeroed. -/
theorem C2_zero_only_on_success_witness :
    (sweep_field ⟨fun _ => (0, 0), fun _ => false⟩ defaults0 [10] false
        (some (2/1000)) none ⟨0, 0, 0, 0⟩).1.psCurrent = 0 :=
  C2_zero_only_on_success _ _ _ _ _ _ _ ⟨_, rfl⟩

/-- C2 counterexample: inject a communication failure on the first
in-loop `PS.set_current` command (the second set command overall, after
the pre-loop ramp).  The sweep aborts with the propagated error, but the
power source is left at the ramp current `10/193 ≠ 0`: the claimed
zero-output safety action never happens, because line 282 is only reached
when the loop completes. -/
theorem C2_counterexample :
    (sweep_field ⟨fun _ => (0, 0), fun n => n == 1⟩ defaults0 [10] false
        (some (2/1000)) none ⟨0, 0, 0, 0⟩).2 = .error (.instrumentError 0) ∧
    (sweep_field ⟨fun _ => (0, 0), fun n => n == 1⟩ defaults0 [10] false
        (some (2/1000)) none ⟨0, 0, 0, 0⟩).1.psCurrent = 10/193 ∧
    (10 : ℚ)/193 ≠ 0 :=
  ⟨rfl, rfl, by norm_num⟩

theorem avoidCollision_not_mem (existing : List String) (dir ext : String) :
    ∀ (fuel : ℕ) (filename : String) (counter : ℕ) (p : String),
      avoidCollision existing dir ext fuel filename counter = some p →
        p ∉ existing := by
  intro fuel
  induction fuel with
  | zero => intro filename counter p h; cases h
  | succ k ih =>
    intro filename counter p h
    unfold avoidCollision at h
    dsimp only at h
    split at h
    · exact ih _ _ _ h
    · next hmem => cases h; exact hmem

/-- The sequence of candidate paths `avoidCollision` probes, in order. -/
def candList (dir ext : String) : ℕ → String → ℕ → List String
  | 0, _, _ => []
  | fuel + 1, filename, counter =>
    pathJoin dir (filename ++ ext) ::
      candList dir ext fuel (filename ++ "_(" ++ toString counter ++ ")") (counter + 1)

theorem avoidCollision_none_sub (existing : List String) (dir ext : String) :
    ∀ (fuel : ℕ) (filename : String) (counter : ℕ),
      avoidCollision existing dir ext fuel filename counter = none →
        ∀ q ∈ candList dir ext fuel filename counter, q ∈ existing := by
  intro fuel
  induction fuel with
  | zero => intro fn c _ q hq; simp [candList] at hq
  | succ k ih =>
    intro fn c h q hq
    unfold avoidCollision at h
    dsimp only at h
    split at h
    · next hmem =>
        unfold candList at hq
        rcases List.mem_cons.mp hq with rfl | hq
        · exact hmem
        · exact ih _ _ h q hq
    · cases h

theorem candList_length_ge (dir ext : String) :
    ∀ (fuel : ℕ) (filename : String) (counter : ℕ),
      ∀ q ∈ candList dir ext fuel filename counter,
        (pathJoin dir (filename ++ ext)).length ≤ q.length := by
  intro fuel
  induction fuel with
  | zero => intro fn c q hq; simp [candList] at hq
  | succ k ih =>
    intro fn c q hq
    unfold candList at hq
    rcases List.mem_cons.mp hq with rfl | hq
    · exact le_refl _
    · refine le_trans ?_ (ih (fn ++ "_(" ++ toString c ++ ")") (c + 1) q hq)
      simp [pathJoin, String.length_append]
      omega

theorem candList_pairwise (dir ext : String) :
    ∀ (fuel : ℕ) (filename : String) (counter : ℕ),
      (candList dir ext fuel filename counter).Pairwise
        (fun a b => a.length < b.length) := by
  intro fuel
  induction fuel with
  | zero => intro fn c; simp [candList]
  | succ k ih =>
    intro fn c
    unfold candList
    refine List.pairwise_cons.mpr ⟨fun q hq => ?_, ih _ _⟩
    refine lt_of_lt_of_le ?_
      (candList_length_ge dir ext k (fn ++ "_(" ++ toString c ++ ")") (c + 1) q hq)
    have h1 : ("_(" : String).length = 2 := rfl
    have h2 : (")" : String).length = 1 := rfl
    simp [pathJoin, String.length_append, h1, h2]
    omega

theorem candList_length (dir ext : String) :
    ∀ (fuel : ℕ) (filename : String) (counter : ℕ),
      (candList dir ext fuel filename counter).length = fuel := by
  intro fuel
  induction fuel with
  | zero => intro fn c; rfl
  | succ k ih => intro fn c; simp [candList, ih]

/-- With fuel `existing.length + 1` the naming loop always terminates
with a path: its candidates all have distinct lengths, so they cannot all
collide with the `existing.length` existing paths. -/
theorem avoidCollision_isSome (existing : List String)
    (dir ext filename : String) (counter : ℕ) :
    (avoidCollision existing dir ext (existing.length + 1) filename
        counter).isSome = true := by
  cases hh : avoidCollision existing dir ext (existing.length + 1) filename counter with
  | some p => rfl
  | none =>
    exfalso
    have hsub : ∀ q ∈ candList dir ext (existing.length + 1) filename counter,
        q ∈ existing :=
      avoidCollision_none_sub existing dir ext _ _ _ hh
    have hnd : (candList dir ext (existing.length + 1) filename counter).Nodup :=
      (candList_pairwise dir ext _ _ _).imp
        (fun hlt => fun heq => absurd (heq ▸ hlt) (lt_irrefl _))
    have hsp := (List.subperm_of_subset hnd (fun q hq => hsub q hq)).length_le
    rw [candList_length] at hsp
    omega

/-- C6 amended: the writer never overwrites — any path it returns is not
among the existing files, and with fuel `existing.length + 1` it always
returns one — and a second write with identical directory, name and
extension is suffixed `_(1)`.  However, when the already-suffixed
candidate also collides, the next suffix is appended to the *suffixed*
name (`name_(1)_(2)`), it does not replace it with the smallest fresh
`_(k)` (see the counterexample). -/
theorem C6_no_overwrite :
    (∀ (existing : List String) (dir ext : String) (fuel : ℕ)
        (filename : String) (counter : ℕ) (p : String),
        avoidCollision existing dir ext fuel filename counter = some p →
          p ∉ existing) ∧
    (∀ (existing : List String) (dir ext filename : String) (counter : ℕ),
        (avoidCollision existing dir ext (existing.length + 1) filename
            counter).isSome = true) ∧
    avoidCollision ["d/test.csv"] "d" ".csv" 2 "test" 1 = some "d/test_(1).csv" :=
  ⟨fun existing dir ext => avoidCollision_not_mem existing dir ext,
   fun existing dir ext => avoidCollision_isSome existing dir ext, rfl⟩

/-- C6 witness: the no-overwrite statement applied at a concrete input —
with `d/test.csv` existing, the written path `d/test_(1).csv` is not an
existing file. -/
theorem C6_no_overwrite_witness :
    ("d/test_(1).csv" : String) ∉ (["d/test.csv"] : List String) :=
  C6_no_overwrite.1 ["d/test.csv"] "d" ".csv" 2 "test" 1 "d/test_(1).csv" rfl

/-- C6 counterexample: with both `d/test.csv` and `d/test_(1).csv`
existing, the code writes `d/test_(1)_(2).csv` — the suffixes accumulate
— while the claimed smallest-`k` rule would write `d/test_(2).csv`. -/
theorem C6_counterexample :
    avoidCollision ["d/test.csv", "d/test_(1).csv"] "d" ".csv" 3 "test" 1
      = some "d/test_(1)_(2).csv" ∧
    specCollisionPath ["d/test.csv", "d/test_(1).csv"] "d" "test" ".csv" 3
      = some "d/test_(2).csv" ∧
    ("d/test_(1)_(2).csv" : String) ≠ "d/test_(2).csv" :=
  ⟨rfl, rfl, by decide⟩

/-- C7: a closed-loop sweep of the field sequence `[10, 20]` (with no
instrument failures) produces a table of exactly 5 rows whose field
column is `[10, 20, -10, -20, 10]`, and whose final X and Y entries are
identical to the first row's — for every sample stream, session defaults
and overrides. -/
theorem C7_closed_loop_table (stream : ℕ → ℚ × ℚ) (d : Defaults)
    (sen : Option ℚ) (rr : Option ℕ) (st : ExpState) :
    ∃ t : Table,
      (sweep_field ⟨stream, fun _ => false⟩ d [10, 20] true sen rr st).2
        = Except.ok t ∧
      t.field_Oe = [10, 20, -10, -20, 10] ∧
      t.current_A.length = 5 ∧ t.field_Oe.length = 5 ∧
      t.X.length = 5 ∧ t.Y.length = 5 ∧
      t.X.getLast? = t.X.head? ∧ t.Y.getLast? = t.Y.head? :=
  ⟨_, rfl, rfl, rfl, rfl, rfl, rfl, rfl, rfl⟩

end MOKE
